import Mathlib

/-!
Verification development for the insulin-dose practice-quiz scoring engine
(`dosing-quiz.js`). The engine is embedded shallowly: numbers become exact
rationals, the JavaScript `parseFloat` result of a text field becomes
`Option ℚ` (`none` models a missing or non-numeric field, i.e. `NaN`), and
the DOM-driven `checkAnswer` becomes a function from the form fields, the
current scenario and the session stats to an optional result (`none` models
the early `alert` return on validation failure).
-/

namespace DosingQuiz

/-- A catalog entry of `foodDatabase`, with the per-serving nutrition facts. -/
structure Food where
  name : String
  servingSize : String
  servingsPerContainer : ℕ
  calories : ℚ
  totalCarbs : ℚ
  fiber : ℚ
  sugars : ℚ
  protein : ℚ
  portions : List ℚ
deriving DecidableEq

def cheerios : Food :=
  ⟨"Cheerios Cereal", "1 cup (28g)", 14, 100, 20, 3, 1, 3, [1/2, 1, 3/2, 2]⟩

def kraftMacAndCheese : Food :=
  ⟨"Kraft Mac & Cheese", "1 cup prepared (189g)", 3, 350, 47, 2, 10, 11, [1/2, 1, 3/2, 2]⟩

def appleMedium : Food :=
  ⟨"Apple (Medium)", "1 medium apple (182g)", 1, 95, 25, 4, 19, 0, [1/2, 1, 3/2, 2]⟩

def whiteBread : Food :=
  ⟨"White Bread", "2 slices (52g)", 10, 140, 26, 1, 3, 5, [1, 2, 3, 4]⟩

def peanutButter : Food :=
  ⟨"Peanut Butter", "2 tbsp (32g)", 15, 190, 7, 2, 3, 8, [1, 2, 3]⟩

def orangeJuice : Food :=
  ⟨"Orange Juice", "8 fl oz (240mL)", 8, 110, 26, 0, 22, 2, [1/2, 1, 3/2, 2]⟩

def pizzaFrozen : Food :=
  ⟨"Pizza (Frozen)", "1/4 pizza (120g)", 4, 320, 38, 2, 5, 13, [1, 2, 3]⟩

def bananaMedium : Food :=
  ⟨"Banana (Medium)", "1 medium banana (118g)", 1, 105, 27, 3, 14, 1, [1/2, 1, 3/2, 2]⟩

def yogurtVanilla : Food :=
  ⟨"Yogurt (Vanilla)", "1 container (170g)", 1, 150, 25, 0, 19, 6, [1/2, 1, 3/2, 2]⟩

def spaghettiWithSauce : Food :=
  ⟨"Spaghetti with Sauce", "1 cup (249g)", 4, 260, 43, 4, 9, 9, [1/2, 1, 3/2, 2]⟩

def granolaBar : Food :=
  ⟨"Granola Bar", "1 bar (35g)", 6, 140, 23, 2, 8, 3, [1, 2, 3]⟩

def chocolateChipCookies : Food :=
  ⟨"Chocolate Chip Cookies", "3 cookies (34g)", 10, 160, 22, 1, 11, 2, [1, 2, 3, 4]⟩

/-- The fixed nutrition catalog `foodDatabase` of `dosing-quiz.js`. -/
def foodDatabase : List Food :=
  [cheerios, kraftMacAndCheese, appleMedium, whiteBread, peanutButter, orangeJuice,
   pizzaFrozen, bananaMedium, yogurtVanilla, spaghettiWithSauce, granolaBar,
   chocolateChipCookies]

/-- The `userSettings` record: carb ratio, correction factor (ISF), target BG. -/
structure Settings where
  carbRatio : ℚ
  correctionFactor : ℚ
  targetBG : ℚ
deriving DecidableEq

/-- The `stats` record: session-wide attempt counters. -/
structure Stats where
  totalAttempts : ℕ
  correctAnswers : ℕ
deriving DecidableEq

/-- JavaScript `Math.round`: round half toward positive infinity. -/
def jsRound (x : ℚ) : ℤ := ⌊x + 1/2⌋

/-- JavaScript `parseFloat(x.toFixed(1))` for finite values: round to one
decimal place, ties toward positive infinity. -/
def toFixed1 (x : ℚ) : ℚ := (jsRound (10 * x) : ℚ) / 10

/-- The computed correct answer of `checkAnswer` (lines 299-308), the spec's
`CorrectDose` record: `netCarbs` is `correctCarbs`, `insulinForCarbs` is
`correctInsulinCarbs`, `correctionDose` is `correctInsulinCorrection`,
`totalDose` is `correctTotalDose`. -/
structure CorrectDose where
  netCarbs : ℚ
  insulinForCarbs : ℚ
  correctionDose : ℚ
  totalDose : ℚ
deriving DecidableEq

/-- Lines 299-308 of `checkAnswer`: the dose oracle.
`correctCarbs = Math.round((totalCarbs - fiber) * portion)`;
`correctInsulinCarbs = parseFloat((correctCarbs / carbRatio).toFixed(1))`;
`correctInsulinCorrection = bgDifference > 0 ? parseFloat((bgDifference / correctionFactor).toFixed(1)) : 0`;
`correctTotalDose = parseFloat((correctInsulinCarbs + correctInsulinCorrection).toFixed(1))`. -/
def computeCorrectDose (food : Food) (portion currentBG : ℚ) (settings : Settings) :
    CorrectDose :=
  let correctCarbs : ℚ := (jsRound ((food.totalCarbs - food.fiber) * portion) : ℚ)
  let correctInsulinCarbs := toFixed1 (correctCarbs / settings.carbRatio)
  let bgDifference := currentBG - settings.targetBG
  let correctInsulinCorrection :=
    if bgDifference > 0 then toFixed1 (bgDifference / settings.correctionFactor) else 0
  let correctTotalDose := toFixed1 (correctInsulinCarbs + correctInsulinCorrection)
  ⟨correctCarbs, correctInsulinCarbs, correctInsulinCorrection, correctTotalDose⟩

/-- The feedback tier chosen in `checkAnswer` (lines 320-333). -/
inductive Tier
  | correct
  | close
  | incorrect
deriving DecidableEq

/-- JavaScript `x <= t` when `x` may be `NaN` (modelled `none`): any comparison
with `NaN` is false. -/
def nanLe (x : Option ℚ) (t : ℚ) : Bool :=
  match x with
  | none => false
  | some v => decide (v ≤ t)

/-- JavaScript truthiness test `!x` on a `parseFloat` result: true exactly for
`NaN` (modelled `none`) and for `0`. -/
def jsFalsy : Option ℚ → Bool
  | none => true
  | some v => v == 0

/-- Lines 310-333 of `checkAnswer`: the tier decision.
`doseDifference = Math.abs(userTotalDose - correctTotalDose)` and
`carbsDifference = Math.abs(userCarbsEating - correctCarbs)`; `Correct` when
`doseDifference <= 0.3 && carbsDifference <= 2`, else `Close` when
`doseDifference <= 1 && carbsDifference <= 5`, else `Incorrect`. A `NaN`
operand makes both comparisons false. -/
def gradeTier (userCarbsEating userTotalDose : Option ℚ) (cd : CorrectDose) : Tier :=
  let doseDifference := userTotalDose.map (fun v => |v - cd.totalDose|)
  let carbsDifference := userCarbsEating.map (fun v => |v - cd.netCarbs|)
  if nanLe doseDifference (3/10) && nanLe carbsDifference 2 then .correct
  else if nanLe doseDifference 1 && nanLe carbsDifference 5 then .close
  else .incorrect

/-- The `data` record handed to `displayFeedback` (lines 335-344): the raw user
values plus the computed correct values. It feeds only the rendered
explanation, never the stats. -/
structure FeedbackData where
  userCarbsEating : Option ℚ
  userInsulinCarbs : Option ℚ
  userInsulinCorrection : ℚ
  userTotalDose : Option ℚ
  correctDose : CorrectDose
deriving DecidableEq

/-- Embedding of `checkAnswer` (lines 288-347). Each text field arrives as the `Option ℚ`
result of `parseFloat` (`none` for a missing or non-numeric field, i.e. `NaN`).
`userInsulinCorrection` is `parseFloat(...) || 0`, hence `getD 0`. The guard on
line 294 is `!userCarbsEating || !userInsulinCarbs || userTotalDose === null ||
userTotalDose === undefined`; since `parseFloat` always returns a number, the
two strict-equality tests are constantly false and are modelled away. `none`
models the early `alert` return (no stats mutation); otherwise the oracle runs,
the tier is decided, `totalAttempts` is incremented, and `correctAnswers` is
incremented on the `correct` branch. -/
def checkAnswer (carbsField insulinCarbsField insulinCorrectionField totalDoseField : Option ℚ)
    (food : Food) (portion currentBG : ℚ) (settings : Settings) (stats : Stats) :
    Option (Tier × Stats × FeedbackData) :=
  let userCarbsEating := carbsField
  let userInsulinCarbs := insulinCarbsField
  let userInsulinCorrection : ℚ := insulinCorrectionField.getD 0
  let userTotalDose := totalDoseField
  if jsFalsy userCarbsEating || jsFalsy userInsulinCarbs || false || false then
    none
  else
    let cd := computeCorrectDose food portion currentBG settings
    let tier := gradeTier userCarbsEating userTotalDose cd
    let stats1 : Stats := ⟨stats.totalAttempts + 1, stats.correctAnswers⟩
    let stats2 : Stats :=
      if tier = .correct then ⟨stats1.totalAttempts, stats1.correctAnswers + 1⟩ else stats1
    some (tier, stats2, ⟨userCarbsEating, userInsulinCarbs, userInsulinCorrection,
      userTotalDose, cd⟩)

/-- The accuracy figure computed in `updateStats` (lines 402-404):
`totalAttempts > 0 ? Math.round((correctAnswers / totalAttempts) * 100) : 0`. -/
def accuracy (stats : Stats) : ℤ :=
  if stats.totalAttempts > 0 then
    jsRound ((stats.correctAnswers : ℚ) / (stats.totalAttempts : ℚ) * 100)
  else 0

/-- A generated question: the scenario state set by `generateQuestion`. -/
structure Scenario where
  food : Food
  portion : ℚ
  currentBG : ℤ
deriving DecidableEq

/-- Lines 222-226 of `generateQuestion`: `Math.round(bg / 5) * 5`. -/
def roundToNearest5 (bg : ℤ) : ℤ := jsRound ((bg : ℚ) / 5) * 5

/-- Embedding of `generateQuestion` (lines 205-231) with its random draws made explicit:
`foodIdx` models `Math.floor(Math.random() * foodDatabase.length)`,
`portionIdx` models `Math.floor(Math.random() * portions.length)`, and
`bgRaw` models the integer drawn from `[80, 280]`; the final `currentBG` is
`bgRaw` rounded to the nearest multiple of 5. `none` is unreachable for
in-range draws. -/
def generateQuestion (foodIdx portionIdx : ℕ) (bgRaw : ℤ) : Option Scenario :=
  match foodDatabase[foodIdx]? with
  | none => none
  | some food =>
    match food.portions[portionIdx]? with
    | none => none
    | some portion => some ⟨food, portion, roundToNearest5 bgRaw⟩

/-- Spec-side definition, following the spec's words only (§4.3 note,
§9 open question): rounding to the nearest integer with ties away from zero.
It is compared against the source-side `jsRound` in the refinement claim. -/
def roundHalfAwayFromZero (x : ℚ) : ℤ :=
  if 0 ≤ x then ⌊x + 1/2⌋ else ⌈x - 1/2⌉

/-- Spec-side definition: half-away-from-zero rounding to one decimal place. -/
def roundHalfAway1 (x : ℚ) : ℚ := (roundHalfAwayFromZero (10 * x) : ℚ) / 10

theorem jsRound_nonneg {x : ℚ} (hx : 0 ≤ x) : 0 ≤ jsRound x := by
  rw [jsRound]
  exact Int.floor_nonneg.mpr (by linarith)

theorem toFixed1_nonneg {x : ℚ} (hx : 0 ≤ x) : 0 ≤ toFixed1 x := by
  rw [toFixed1]
  refine div_nonneg ?_ (by norm_num)
  exact_mod_cast jsRound_nonneg (by linarith)

theorem jsRound_eq_half_away {x : ℚ} (hx : 0 ≤ x) :
    jsRound x = roundHalfAwayFromZero x := by
  rw [jsRound, roundHalfAwayFromZero, if_pos hx]

theorem toFixed1_eq_half_away {x : ℚ} (hx : 0 ≤ x) :
    toFixed1 x = roundHalfAway1 x := by
  rw [toFixed1, roundHalfAway1, jsRound_eq_half_away (by linarith)]

theorem computeCorrectDose_netCarbs (food : Food) (portion currentBG : ℚ) (s : Settings) :
    (computeCorrectDose food portion currentBG s).netCarbs =
      ((jsRound ((food.totalCarbs - food.fiber) * portion) : ℤ) : ℚ) := rfl

theorem computeCorrectDose_insulinForCarbs (food : Food) (portion currentBG : ℚ)
    (s : Settings) :
    (computeCorrectDose food portion currentBG s).insulinForCarbs =
      toFixed1 ((computeCorrectDose food portion currentBG s).netCarbs / s.carbRatio) := rfl

theorem computeCorrectDose_correctionDose (food : Food) (portion currentBG : ℚ)
    (s : Settings) :
    (computeCorrectDose food portion currentBG s).correctionDose =
      (if currentBG - s.targetBG > 0 then toFixed1 ((currentBG - s.targetBG) / s.correctionFactor)
       else 0) := rfl

theorem computeCorrectDose_totalDose (food : Food) (portion currentBG : ℚ) (s : Settings) :
    (computeCorrectDose food portion currentBG s).totalDose =
      toFixed1 ((computeCorrectDose food portion currentBG s).insulinForCarbs +
        (computeCorrectDose food portion currentBG s).correctionDose) := rfl

/-- C2: the dose oracle computes `netCarbs` as the integer rounding of the
fiber-adjusted carb mass, `insulinForCarbs` as the one-decimal rounding of the
rounded `netCarbs` divided by the carb ratio, and `totalDose` as the one-decimal
rounding of `insulinForCarbs + correctionDose`, the rounded `netCarbs` feeding
all downstream arithmetic; on Cheerios, portion 1, carb ratio 10, correction
factor 50, target 100, current BG 150 it returns netCarbs 17, insulinForCarbs
1.7, correctionDose 1.0, totalDose 2.7. -/
theorem C2_dose_oracle (food : Food) (portion currentBG : ℚ) (s : Settings) :
    (computeCorrectDose food portion currentBG s).netCarbs =
      ((jsRound ((food.totalCarbs - food.fiber) * portion) : ℤ) : ℚ) ∧
    (computeCorrectDose food portion currentBG s).insulinForCarbs =
      toFixed1 ((computeCorrectDose food portion currentBG s).netCarbs / s.carbRatio) ∧
    (computeCorrectDose food portion currentBG s).totalDose =
      toFixed1 ((computeCorrectDose food portion currentBG s).insulinForCarbs +
        (computeCorrectDose food portion currentBG s).correctionDose) ∧
    computeCorrectDose cheerios 1 150 ⟨10, 50, 100⟩ = ⟨17, 17/10, 1, 27/10⟩ := by
  refine ⟨rfl, rfl, rfl, ?_⟩
  norm_num [computeCorrectDose, cheerios, toFixed1, jsRound]

/-- C3: the grader assigns `Correct` exactly when the total-dose error is at
most 0.3 and the carb error at most 2, otherwise `Close` exactly when the
total-dose error is at most 1 and the carb error at most 5, otherwise
`Incorrect` — tiers evaluated in that order, first match winning. -/
theorem C3_tier_policy (userCarbsEating userTotalDose : ℚ) (cd : CorrectDose) :
    (gradeTier (some userCarbsEating) (some userTotalDose) cd = .correct ↔
      (|userTotalDose - cd.totalDose| ≤ 3/10 ∧ |userCarbsEating - cd.netCarbs| ≤ 2)) ∧
    (gradeTier (some userCarbsEating) (some userTotalDose) cd = .close ↔
      (¬(|userTotalDose - cd.totalDose| ≤ 3/10 ∧ |userCarbsEating - cd.netCarbs| ≤ 2) ∧
        |userTotalDose - cd.totalDose| ≤ 1 ∧ |userCarbsEating - cd.netCarbs| ≤ 5)) ∧
    (gradeTier (some userCarbsEating) (some userTotalDose) cd = .incorrect ↔
      (¬(|userTotalDose - cd.totalDose| ≤ 3/10 ∧ |userCarbsEating - cd.netCarbs| ≤ 2) ∧
        ¬(|userTotalDose - cd.totalDose| ≤ 1 ∧ |userCarbsEating - cd.netCarbs| ≤ 5))) := by
  unfold gradeTier nanLe
  simp only [Option.map_some']
  by_cases h1 : |userTotalDose - cd.totalDose| ≤ 3/10 ∧ |userCarbsEating - cd.netCarbs| ≤ 2
  · rw [if_pos (by simp only [Bool.and_eq_true, decide_eq_true_eq]; exact h1)]
    simp [h1.1, h1.2]
  · rw [if_neg (by simp only [Bool.and_eq_true, decide_eq_true_eq]; exact h1)]
    by_cases h2 : |userTotalDose - cd.totalDose| ≤ 1 ∧ |userCarbsEating - cd.netCarbs| ≤ 5
    · rw [if_pos (by simp only [Bool.and_eq_true, decide_eq_true_eq]; exact h2)]
      simp [h1, h2.1, h2.2]
    · rw [if_neg (by simp only [Bool.and_eq_true, decide_eq_true_eq]; exact h2)]
      simp [h1, h2]

/-- C5: the oracle's correction dose is never negative, is exactly 0 when the
current BG is at or below target, and equals the one-decimal rounding of
`(currentBG - targetBG) / correctionFactor` when the current BG is above
target. -/
theorem C5_correction_dose (food : Food) (portion currentBG : ℚ) (s : Settings)
    (hcf : 0 < s.correctionFactor) :
    0 ≤ (computeCorrectDose food portion currentBG s).correctionDose ∧
    (currentBG ≤ s.targetBG → (computeCorrectDose food portion currentBG s).correctionDose = 0) ∧
    (s.targetBG < currentBG →
      (computeCorrectDose food portion currentBG s).correctionDose =
        toFixed1 ((currentBG - s.targetBG) / s.correctionFactor)) := by
  rw [computeCorrectDose_correctionDose]
  refine ⟨?_, ?_, ?_⟩
  · split_ifs with h
    · exact toFixed1_nonneg (div_nonneg (by linarith) hcf.le)
    · exact le_rfl
  · intro h
    rw [if_neg (by linarith)]
  · intro h
    rw [if_pos (by linarith)]

/-- C5 witness: with Cheerios, portion 1, current BG 150 and settings
carb ratio 10, correction factor 50, target 100, the correction dose is
nonnegative, and at current BG 90 (below target) it is 0. -/
theorem C5_correction_dose_witness :
    0 ≤ (computeCorrectDose cheerios 1 150 ⟨10, 50, 100⟩).correctionDose ∧
    (computeCorrectDose cheerios 1 90 ⟨10, 50, 100⟩).correctionDose = 0 :=
  ⟨(C5_correction_dose cheerios 1 150 ⟨10, 50, 100⟩ (by norm_num)).1,
   (C5_correction_dose cheerios 1 90 ⟨10, 50, 100⟩ (by norm_num)).2.1 (by norm_num)⟩

/-- C1 counter-evidence: submitting carbs 17 and insulin-for-carbs 1.7 with the
total-dose field left blank (so `parseFloat` yields `NaN`, modelled `none`)
against the Cheerios scenario is NOT rejected by the line-294 validation guard:
`checkAnswer` proceeds to grade it as `Incorrect` and increments
`totalAttempts` from 0 to 1, because the guard compares the `parseFloat` result
against `null`/`undefined`, which never match a number (including `NaN`). -/
theorem C1_missing_totalDose_is_graded :
    checkAnswer (some 17) (some (17/10)) none none cheerios 1 150 ⟨10, 50, 100⟩ ⟨0, 0⟩ =
      some (.incorrect, ⟨1, 0⟩, ⟨some 17, some (17/10), 0, none, ⟨17, 17/10, 1, 27/10⟩⟩) := by
  norm_num [checkAnswer, gradeTier, nanLe, jsFalsy, computeCorrectDose, cheerios, toFixed1,
    jsRound]
  decide

/-- C4: on inputs satisfying the catalog invariant (fiber at most total carbs),
a nonnegative portion and positive settings, every rounded oracle quantity
coincides with the spec's half-away-from-zero rounding: `netCarbs` is the
integer half-away-from-zero rounding of the exact product, and each dose
quantity the half-away-from-zero rounding to one decimal of the exact quotient
or sum. -/
theorem C4_rounding_refinement (food : Food) (portion currentBG : ℚ) (s : Settings)
    (hfc : food.fiber ≤ food.totalCarbs) (hp : 0 ≤ portion)
    (hcr : 0 < s.carbRatio) (hcf : 0 < s.correctionFactor) :
    (computeCorrectDose food portion currentBG s).netCarbs =
      ((roundHalfAwayFromZero ((food.totalCarbs - food.fiber) * portion) : ℤ) : ℚ) ∧
    (computeCorrectDose food portion currentBG s).insulinForCarbs =
      roundHalfAway1 ((computeCorrectDose food portion currentBG s).netCarbs / s.carbRatio) ∧
    (computeCorrectDose food portion currentBG s).correctionDose =
      (if currentBG - s.targetBG > 0 then
        roundHalfAway1 ((currentBG - s.targetBG) / s.correctionFactor) else 0) ∧
    (computeCorrectDose food portion currentBG s).totalDose =
      roundHalfAway1 ((computeCorrectDose food portion currentBG s).insulinForCarbs +
        (computeCorrectDose food portion currentBG s).correctionDose) := by
  have harg : 0 ≤ (food.totalCarbs - food.fiber) * portion := mul_nonneg (by linarith) hp
  have hnet : 0 ≤ (computeCorrectDose food portion currentBG s).netCarbs := by
    rw [computeCorrectDose_netCarbs]
    exact_mod_cast jsRound_nonneg harg
  have hifc : 0 ≤ (computeCorrectDose food portion currentBG s).insulinForCarbs := by
    rw [computeCorrectDose_insulinForCarbs]
    exact toFixed1_nonneg (div_nonneg hnet hcr.le)
  have hcd : 0 ≤ (computeCorrectDose food portion currentBG s).correctionDose := by
    rw [computeCorrectDose_correctionDose]
    split_ifs with h
    · exact toFixed1_nonneg (div_nonneg (by linarith) hcf.le)
    · exact le_rfl
  refine ⟨?_, ?_, ?_, ?_⟩
  · rw [computeCorrectDose_netCarbs, jsRound_eq_half_away harg]
  · rw [computeCorrectDose_insulinForCarbs, toFixed1_eq_half_away (div_nonneg hnet hcr.le)]
  · rw [computeCorrectDose_correctionDose]
    split_ifs with h
    · rw [toFixed1_eq_half_away (div_nonneg (by linarith) hcf.le)]
    · rfl
  · rw [computeCorrectDose_totalDose, toFixed1_eq_half_away (by linarith)]

/-- C4 witness: the refinement instantiated at Cheerios, portion 1, current BG
150, settings carb ratio 10, correction factor 50, target 100. -/
theorem C4_rounding_refinement_witness :
    (computeCorrectDose cheerios 1 150 ⟨10, 50, 100⟩).netCarbs =
      ((roundHalfAwayFromZero ((cheerios.totalCarbs - cheerios.fiber) * 1) : ℤ) : ℚ) :=
  (C4_rounding_refinement cheerios 1 150 ⟨10, 50, 100⟩ (by norm_num [cheerios]) (by norm_num)
    (by norm_num) (by norm_num)).1

/-- C6: whenever `checkAnswer` reaches grading (a `some` result),
`totalAttempts` goes up by exactly 1, and `correctAnswers` goes up by exactly 1
precisely when the tier is `Correct` (unchanged otherwise, in particular on a
`Close` submission). -/
theorem C6_stats_update
    (carbsField insulinCarbsField insulinCorrectionField totalDoseField : Option ℚ)
    (food : Food) (portion currentBG : ℚ) (settings : Settings) (stats : Stats)
    (tier : Tier) (stats2 : Stats) (fd : FeedbackData)
    (h : checkAnswer carbsField insulinCarbsField insulinCorrectionField totalDoseField
          food portion currentBG settings stats = some (tier, stats2, fd)) :
    stats2.totalAttempts = stats.totalAttempts + 1 ∧
    (stats2.correctAnswers = stats.correctAnswers + 1 ↔ tier = .correct) ∧
    (tier ≠ .correct → stats2.correctAnswers = stats.correctAnswers) := by
  simp only [checkAnswer] at h
  split_ifs at h with hval htier
  · simp only [Option.some.injEq, Prod.mk.injEq] at h
    obtain ⟨ht, hs, hfd⟩ := h
    subst ht
    subst hs
    exact ⟨rfl, by simp [htier], fun hne => absurd htier hne⟩
  · simp only [Option.some.injEq, Prod.mk.injEq] at h
    obtain ⟨ht, hs, hfd⟩ := h
    subst ht
    subst hs
    exact ⟨rfl, by simp [htier], fun hne => rfl⟩

/-- C6 witness: the spec's Close example — submitting carbs 17, insulin 1.7,
correction 1, total 3.5 against the Cheerios scenario (correct total 2.7) is
graded, `totalAttempts` becomes 1 and `correctAnswers` stays 0 since the tier
is `Close`, not `Correct`. -/
theorem C6_stats_update_witness :
    (⟨1, 0⟩ : Stats).totalAttempts = (⟨0, 0⟩ : Stats).totalAttempts + 1 ∧
    ((⟨1, 0⟩ : Stats).correctAnswers = (⟨0, 0⟩ : Stats).correctAnswers + 1 ↔
      Tier.close = .correct) ∧
    (Tier.close ≠ .correct →
      (⟨1, 0⟩ : Stats).correctAnswers = (⟨0, 0⟩ : Stats).correctAnswers) :=
  C6_stats_update (some 17) (some (17/10)) (some 1) (some (7/2)) cheerios 1 150
    ⟨10, 50, 100⟩ ⟨0, 0⟩ .close ⟨1, 0⟩
    ⟨some 17, some (17/10), 1, some (7/2), ⟨17, 17/10, 1, 27/10⟩⟩
    (by
      norm_num [checkAnswer, gradeTier, nanLe, jsFalsy, computeCorrectDose, cheerios,
        toFixed1, jsRound]
      rw [show |(4 : ℚ)/5| = 4/5 from abs_of_nonneg (by norm_num)]
      norm_num
      decide)

/-- C7: the displayed accuracy equals `round(100 * correctAnswers /
totalAttempts)` and is 0 when `totalAttempts = 0`. -/
theorem C7_accuracy (stats : Stats) :
    accuracy stats =
      if stats.totalAttempts = 0 then 0
      else jsRound (100 * (stats.correctAnswers : ℚ) / (stats.totalAttempts : ℚ)) := by
  rw [accuracy]
  rcases Nat.eq_zero_or_pos stats.totalAttempts with h | h
  · simp [h]
  · rw [if_pos h, if_neg (Nat.pos_iff_ne_zero.mp h)]
    congr 1
    ring

/-- C8: with in-range random draws, every generated scenario has a food from
the catalog, a portion multiplier drawn from that food's allowed portions, and
a current BG that is a multiple of 5 within [80, 280] (the raw integer draw
from [80, 280] rounded to the nearest multiple of 5, ties toward positive
infinity). -/
theorem C8_scenario_wellformed (foodIdx portionIdx : ℕ) (bgRaw : ℤ) (sc : Scenario)
    (hgen : generateQuestion foodIdx portionIdx bgRaw = some sc)
    (hlo : 80 ≤ bgRaw) (hhi : bgRaw ≤ 280) :
    sc.food ∈ foodDatabase ∧ sc.portion ∈ sc.food.portions ∧
    (5 ∣ sc.currentBG) ∧ 80 ≤ sc.currentBG ∧ sc.currentBG ≤ 280 := by
  rw [generateQuestion] at hgen
  split at hgen
  · exact absurd hgen (by simp)
  · rename_i food hfood
    split at hgen
    · exact absurd hgen (by simp)
    · rename_i portion hport
      simp only [Option.some.injEq] at hgen
      subst hgen
      obtain ⟨hflen, hfeq⟩ := List.getElem?_eq_some_iff.mp hfood
      obtain ⟨hplen, hpeq⟩ := List.getElem?_eq_some_iff.mp hport
      have hcast80 : (80 : ℚ) ≤ (bgRaw : ℚ) := by exact_mod_cast hlo
      have hcast280 : (bgRaw : ℚ) ≤ 280 := by exact_mod_cast hhi
      have h16 : (16 : ℤ) ≤ ⌊(bgRaw : ℚ) / 5 + 1/2⌋ := Int.le_floor.mpr (by push_cast; linarith)
      have h56 : ⌊(bgRaw : ℚ) / 5 + 1/2⌋ ≤ 56 := by
        have hlt : ⌊(bgRaw : ℚ) / 5 + 1/2⌋ < 57 := Int.floor_lt.mpr (by push_cast; linarith)
        omega
      refine ⟨?_, ?_, ?_, ?_, ?_⟩
      · exact hfeq ▸ List.getElem_mem hflen
      · exact hpeq ▸ List.getElem_mem hplen
      · exact dvd_mul_left 5 (jsRound ((bgRaw : ℚ) / 5))
      · show 80 ≤ jsRound ((bgRaw : ℚ) / 5) * 5
        rw [jsRound]
        linarith
      · show jsRound ((bgRaw : ℚ) / 5) * 5 ≤ 280
        rw [jsRound]
        linarith

/-- C8 witness: draws food index 0 (Cheerios), portion index 1 (one serving),
raw BG 150; the scenario is in the catalog, the portion allowed, and the BG a
multiple of 5 within range. -/
theorem C8_scenario_wellformed_witness :
    cheerios ∈ foodDatabase ∧ (1 : ℚ) ∈ cheerios.portions ∧
    (5 ∣ (150 : ℤ)) ∧ (80 : ℤ) ≤ 150 ∧ (150 : ℤ) ≤ 280 :=
  C8_scenario_wellformed 0 1 150 ⟨cheerios, 1, 150⟩
    (by norm_num [generateQuestion, foodDatabase, roundToNearest5, jsRound]; rfl)
    (by norm_num) (by norm_num)

/-- C9: the catalog has exactly twelve entries, each satisfying the invariant
`fiber ≤ totalCarbs`; and for any food satisfying that invariant and any
positive portion multiplier, the oracle's `netCarbs` is never negative. -/
theorem C9_netCarbs_nonneg :
    foodDatabase.length = 12 ∧
    (∀ f ∈ foodDatabase, f.fiber ≤ f.totalCarbs) ∧
    (∀ (f : Food) (portion currentBG : ℚ) (s : Settings),
      f.fiber ≤ f.totalCarbs → 0 < portion →
      0 ≤ (computeCorrectDose f portion currentBG s).netCarbs) := by
  refine ⟨rfl, ?_, ?_⟩
  · intro f hf
    fin_cases hf <;>
      norm_num [cheerios, kraftMacAndCheese, appleMedium, whiteBread, peanutButter,
        orangeJuice, pizzaFrozen, bananaMedium, yogurtVanilla, spaghettiWithSauce,
        granolaBar, chocolateChipCookies]
  · intro f portion currentBG s hfc hp
    rw [computeCorrectDose_netCarbs]
    exact_mod_cast jsRound_nonneg (mul_nonneg (by linarith) hp.le)

/-- C9 witness: Cheerios satisfies the catalog invariant and its oracle
`netCarbs` at portion 1 is nonnegative. -/
theorem C9_netCarbs_nonneg_witness :
    cheerios.fiber ≤ cheerios.totalCarbs ∧
    0 ≤ (computeCorrectDose cheerios 1 150 ⟨10, 50, 100⟩).netCarbs :=
  ⟨C9_netCarbs_nonneg.2.1 cheerios (by simp [foodDatabase]),
   C9_netCarbs_nonneg.2.2 cheerios 1 150 ⟨10, 50, 100⟩ (by norm_num [cheerios]) (by norm_num)⟩

/-- C10: two graded submissions that agree on the carbs-eaten and total-dose
fields but differ arbitrarily in the insulin-for-carbs and insulin-correction
fields receive the same tier and produce the same stats update — the
sub-quantity answers reach only the feedback data for the displayed
explanation. -/
theorem C10_subquantities_no_influence
    (carbsField totalDoseField insulinCarbsField1 insulinCorrectionField1
      insulinCarbsField2 insulinCorrectionField2 : Option ℚ)
    (food : Food) (portion currentBG : ℚ) (settings : Settings) (stats : Stats)
    (tier1 tier2 : Tier) (stats1 stats2 : Stats) (fd1 fd2 : FeedbackData)
    (h1 : checkAnswer carbsField insulinCarbsField1 insulinCorrectionField1 totalDoseField
          food portion currentBG settings stats = some (tier1, stats1, fd1))
    (h2 : checkAnswer carbsField insulinCarbsField2 insulinCorrectionField2 totalDoseField
          food portion currentBG settings stats = some (tier2, stats2, fd2)) :
    tier1 = tier2 ∧ stats1 = stats2 := by
  simp only [checkAnswer] at h1 h2
  split_ifs at h1 h2
  all_goals
    simp only [Option.some.injEq, Prod.mk.injEq] at h1 h2
  all_goals
    obtain ⟨ht1, hs1, hf1⟩ := h1
  all_goals
    obtain ⟨ht2, hs2, hf2⟩ := h2
  all_goals
    subst ht1
  all_goals
    subst hs1
  all_goals
    subst ht2
  all_goals
    subst hs2
  all_goals
    exact ⟨rfl, rfl⟩

/-- C10 witness: two Correct submissions against the Cheerios scenario that
agree on carbs 17 and total 2.7 but disagree on the sub-quantities (1.7 and 1
versus 99 and blank) get the same tier and the same stats. -/
theorem C10_subquantities_no_influence_witness :
    Tier.correct = Tier.correct ∧ (⟨1, 1⟩ : Stats) = ⟨1, 1⟩ :=
  C10_subquantities_no_influence (some 17) (some (27/10)) (some (17/10)) (some 1)
    (some 99) none cheerios 1 150 ⟨10, 50, 100⟩ ⟨0, 0⟩ .correct .correct ⟨1, 1⟩ ⟨1, 1⟩
    ⟨some 17, some (17/10), 1, some (27/10), ⟨17, 17/10, 1, 27/10⟩⟩
    ⟨some 17, some 99, 0, some (27/10), ⟨17, 17/10, 1, 27/10⟩⟩
    (by norm_num [checkAnswer, gradeTier, nanLe, jsFalsy, computeCorrectDose, cheerios,
      toFixed1, jsRound])
    (by norm_num [checkAnswer, gradeTier, nanLe, jsFalsy, computeCorrectDose, cheerios,
      toFixed1, jsRound])

end DosingQuiz
